import Mathlib

/-!
Shallow embedding of system/stack/btm/btm_ble_adv_filter.cc (BLE APCF
advertisement payload filter host layer): the filter-slot accounting table,
the condition encoders' command payloads, the completion router, and the
IRK-backed identity-record side effects, together with proofs about them.

Conventions:
- machine bytes are modelled as Nat, with an explicit % 256 wherever the
  source narrows through a uint8_t cast (UINT8_TO_STREAM etc.);
- the slot array p_addr_filter_count is modelled as a total map
  Nat -> PFCount (the source indexes it out of bounds, see the scan-loop
  theorems; a total map keeps the embedding executable);
- fallible collaborator results are explicit pairs/Options;
- C loops over the slot table become fuel-indexed structural recursions,
  with the fuel equal to the source's loop bound (max_filter).
-/

set_option autoImplicit false

namespace AdvFilt

/-! ### Constants

Constants defined in btm_ble_adv_filter.cc itself carry their in-file values.
Constants from headers outside this repository snapshot (btm_ble_api_types.h
and friends) are modelled from the spec: the condition-type enumeration is a
contiguous range with the all-types pseudo-type at the top (valid range
0..ALL, MAX = ALL + 1), the scan-condition actions are the enumerated action
values Add=1 / Delete=2 / Clear=3 given in spec section 6, and the subcodes
are distinct small bytes with feature-selection distinct from every
condition subcode. None of the claims depend on the particular numerals,
only on distinctness and on the orderings used by the source. -/

/-- Condition type: address filter. -/
def BTM_BLE_PF_ADDR_FILTER : Nat := 0
/-- Condition type: service-data-presence filter. -/
def BTM_BLE_PF_SRVC_DATA : Nat := 1
/-- Condition type: service UUID filter. -/
def BTM_BLE_PF_SRVC_UUID : Nat := 2
/-- Condition type: solicited service UUID filter. -/
def BTM_BLE_PF_SRVC_SOL_UUID : Nat := 3
/-- Condition type: local-name filter. -/
def BTM_BLE_PF_LOCAL_NAME : Nat := 4
/-- Condition type: manufacturer-data filter. -/
def BTM_BLE_PF_MANU_DATA : Nat := 5
/-- Condition type: service-data-pattern filter. -/
def BTM_BLE_PF_SRVC_DATA_PATTERN : Nat := 6
/-- Condition pseudo-type: all types (only clear applies). -/
def BTM_BLE_PF_TYPE_ALL : Nat := 7
/-- One past the last valid condition type; size of the per-slot counter array. -/
def BTM_BLE_PF_TYPE_MAX : Nat := 8

/-- Scan-condition action: add. -/
def BTM_BLE_SCAN_COND_ADD : Nat := 1
/-- Scan-condition action: delete. -/
def BTM_BLE_SCAN_COND_DELETE : Nat := 2
/-- Scan-condition action: clear. -/
def BTM_BLE_SCAN_COND_CLEAR : Nat := 3

/-- Vendor sub-command: enable/disable the APCF feature. -/
def BTM_BLE_META_PF_ENABLE : Nat := 0
/-- Vendor sub-command: feature selection. -/
def BTM_BLE_META_PF_FEAT_SEL : Nat := 1
/-- Vendor sub-command: address filter. -/
def BTM_BLE_META_PF_ADDR : Nat := 2
/-- Vendor sub-command: service UUID filter. -/
def BTM_BLE_META_PF_UUID : Nat := 3
/-- Vendor sub-command: solicited service UUID filter. -/
def BTM_BLE_META_PF_SOL_UUID : Nat := 4
/-- Vendor sub-command: local-name filter. -/
def BTM_BLE_META_PF_LOCAL_NAME : Nat := 5
/-- Vendor sub-command: manufacturer-data filter. -/
def BTM_BLE_META_PF_MANU_DATA : Nat := 6
/-- Vendor sub-command: service-data filter. -/
def BTM_BLE_META_PF_SRVC_DATA : Nat := 7
/-- Vendor sub-command: all filters. -/
def BTM_BLE_META_PF_ALL : Nat := 8

/-- Sentinel returned when no filter counter could be located or updated. -/
def BTM_BLE_INVALID_COUNTER : Nat := 0xff

/-- Meta-command header length: subcode, action, filter index. -/
def BTM_BLE_ADV_FILT_META_HDR_LENGTH : Nat := 3
/-- Length of the feature-selection body in BTM_BleAdvFilterParamSetup. -/
def BTM_BLE_ADV_FILT_FEAT_SELN_LEN : Nat := 13
/-- Length of the tracking-entries field. -/
def BTM_BLE_ADV_FILT_TRACK_NUM : Nat := 2
/-- PCF selection bitmask meaning no feature selected. -/
def BTM_BLE_PF_SELECT_NONE : Nat := 0
/-- Length of the feature-selection body in BTM_LE_PF_clear. -/
def BTM_BLE_PF_FEAT_SEL_LEN : Nat := 18
/-- Length of the enable command payload. -/
def BTM_BLE_PCF_ENABLE_LEN : Nat := 2
/-- Length of the wire address field: 6 address bytes plus 1 type byte. -/
def BTM_BLE_META_ADDR_LEN : Nat := 7
/-- Maximum variable-field length accepted by the condition encoders.
Modelled from the spec: header constant outside this file; spec section 4.3
fixes the budget as 31 bytes minus fixed overhead, i.e. 29. -/
def BTM_BLE_PF_STR_LEN_MAX : Nat := 29
/-- Logic OR list-condition value. Modelled from the spec: header constant. -/
def BTM_BLE_PF_LOGIC_OR : Nat := 0
/-- Logic AND list-condition value. Modelled from the spec: header constant. -/
def BTM_BLE_PF_LOGIC_AND : Nat := 1
/-- Callback pseudo-action reporting an enable-stage failure.
Modelled from the spec: header constant outside this file. -/
def BTM_BLE_PF_ENABLE : Nat := 1
/-- Callback pseudo-action reporting a config-stage failure.
Modelled from the spec: header constant outside this file. -/
def BTM_BLE_PF_CONFIG : Nat := 2
/-- Chip capability baseline version (L release).
Modelled from the spec: header constant; only its ordering is used. -/
def BTM_VSC_CHIP_CAPABILITY_L_VERSION : Nat := 55

/-- HCI-level success status. Modelled from the spec: header constant. -/
def HCI_SUCCESS : Nat := 0
/-- BTM status: success. Modelled from the spec: header constant. -/
def BTM_SUCCESS : Nat := 0
/-- BTM status: mode unsupported. Modelled from the spec: the fixed
unsupported status every operation reports when filtering is unavailable. -/
def BTM_MODE_UNSUPPORTED : Nat := 4
/-- BTM status: illegal value. Modelled from the spec: header constant. -/
def BTM_ILLEGAL_VALUE : Nat := 5
/-- BTM status: unknown address. Modelled from the spec: header constant. -/
def BTM_UNKNOWN_ADDR : Nat := 7
/-- BTM status: error processing. Modelled from the spec: header constant. -/
def BTM_ERR_PROCESSING : Nat := 10
/-- Numeric value of a tBTM_STATUS (identity on the modelled numerals). -/
def btm_status_value (s : Nat) : Nat := s

/-! ### Byte-stream helpers (UINT8_TO_STREAM and friends) -/

/-- One byte written through a uint8_t cast. -/
def UINT8B (v : Nat) : List Nat := [v % 256]
/-- Two bytes, little-endian (UINT16_TO_STREAM). -/
def UINT16B (v : Nat) : List Nat := [v % 256, v / 256 % 256]
/-- Four bytes, little-endian (UINT32_TO_STREAM). -/
def UINT32B (v : Nat) : List Nat :=
  [v % 256, v / 256 % 256, v / 65536 % 256, v / 16777216 % 256]

/-! ### Data model -/

/-- A 6-byte Bluetooth device address, most significant byte first,
as in the external RawAddress value type. -/
abbrev RawAddress := List Nat

/-- The all-zero address, RawAddress::kEmpty. -/
def emptyAddress : RawAddress := List.replicate 6 0

/-- RawAddress::IsEmpty: equality with the all-zero address. -/
def RawAddress.IsEmpty (a : RawAddress) : Bool := a == emptyAddress

/-- The first six bytes of an address (addresses are 6 bytes wide). -/
def addr6 (a : RawAddress) : List Nat := (List.range 6).map (fun i => a.getD i 0)

/-- BDADDR_TO_STREAM writes the six address bytes in reverse
(least significant byte first). -/
def bdaddrToStream (a : RawAddress) : List Nat := (addr6 a).reverse

/-- tBLE_BD_ADDR: an address qualified with its BLE address type. -/
structure BLE_BD_ADDR where
  type : Nat
  bda : RawAddress
deriving DecidableEq

/-- The zeroed tBLE_BD_ADDR produced by memset. -/
def emptyBdAddr : BLE_BD_ADDR := ⟨0, emptyAddress⟩

/-- to_ble_addr_type: narrowing of a raw uint8 into the BLE address type
enumeration. Modelled from the spec: external conversion, a plain cast. -/
def to_ble_addr_type (raw : Nat) : Nat := raw

/-- tBTM_BLE_PF_COUNT: one slot of the filter accounting table; per-type
counters are one uint8 per condition type (BTM_BLE_PF_TYPE_MAX entries). -/
structure PFCount where
  in_use : Bool
  bd_addr : RawAddress
  pf_counter : List Nat
deriving DecidableEq

/-- A fully zeroed slot (memset 0). -/
def zeroPFCount : PFCount := ⟨false, emptyAddress, List.replicate 8 0⟩

/-- Point update of the slot table. -/
def setSlot (f : Nat → PFCount) (i : Nat) (v : PFCount) : Nat → PFCount :=
  fun j => if j = i then v else f j

/-- tBTM_BLE_ADV_FILTER_CB: slot table, pending filter target, op type. -/
structure AdvFiltCB where
  slots : Nat → PFCount
  cur_filter_target : BLE_BD_ADDR
  op_type : Nat

/-- tBTM_BLE_VSC_CB (the fields this module reads): controller capability
record populated once at init. -/
structure VscCb where
  filter_support : Nat
  max_filter : Nat
  version_supported : Nat
deriving DecidableEq

/-- is_filtering_supported: both capability fields nonzero. -/
def is_filtering_supported (v : VscCb) : Bool :=
  v.filter_support != 0 && v.max_filter != 0

/-- State of the security/device-record manager collaborator.
Modelled from the spec: the external find/allocate/delete-device,
bonded-check and key-install operations of section 6. Devices in
undeletable are currently connected, so BTM_SecDeleteDevice fails on them. -/
structure SecState where
  dev_records : List RawAddress
  bonded : List RawAddress
  undeletable : List RawAddress
  ble_keys : List (RawAddress × List Nat)
deriving DecidableEq

/-- btm_find_dev. Modelled from the spec: device-record lookup by address. -/
def btm_find_dev (sec : SecState) (a : RawAddress) : Bool :=
  sec.dev_records.contains a

/-- btm_sec_alloc_dev. Modelled from the spec: allocate a device record. -/
def btm_sec_alloc_dev (sec : SecState) (a : RawAddress) : SecState :=
  { sec with dev_records := a :: sec.dev_records }

/-- btm_sec_is_a_bonded_dev. Modelled from the spec: bonded-device check. -/
def btm_sec_is_a_bonded_dev (sec : SecState) (a : RawAddress) : Bool :=
  sec.bonded.contains a

/-- BTM_SecDeleteDevice. Modelled from the spec: deletion fails (returns
false) when the device is still connected, else removes the record. -/
def BTM_SecDeleteDevice (sec : SecState) (a : RawAddress) : SecState × Bool :=
  if sec.undeletable.contains a then (sec, false)
  else ({ sec with dev_records := sec.dev_records.filter (fun r => r != a) }, true)

/-- BTM_SecAddBleKey with a PID key. Modelled from the spec: installs an
identity-resolving key for the address. -/
def BTM_SecAddBleKey (sec : SecState) (a : RawAddress) (irk : List Nat) : SecState :=
  { sec with ble_keys := (a, irk) :: sec.ble_keys }

/-- The remove_me_later_map: filter index to address, plus the module's
control block and the collaborating security state. -/
structure ModuleState where
  cb : AdvFiltCB
  remove_me_later : List (Nat × RawAddress)
  sec : SecState

/-- unordered_map::find projected to the mapped address. -/
def mapLookup (m : List (Nat × RawAddress)) (k : Nat) : Option RawAddress :=
  (m.find? (fun e => e.1 == k)).map (fun e => e.2)

/-- unordered_map::erase by key. -/
def mapErase (m : List (Nat × RawAddress)) (k : Nat) : List (Nat × RawAddress) :=
  m.filter (fun e => e.1 != k)

/-- unordered_map::emplace: inserts only when the key is absent. -/
def mapEmplace (m : List (Nat × RawAddress)) (k : Nat) (a : RawAddress) :
    List (Nat × RawAddress) :=
  if (mapLookup m k).isSome then m else (k, a) :: m

/-- One command handed to the HCI transport: the subcode its bound
completion handler expects, and the payload bytes actually sent (all go to
the HCI_BLE_ADV_FILTER vendor opcode). -/
structure Send where
  expected_ocf : Nat
  payload : List Nat
deriving DecidableEq

/-- One invocation of a tBTM_BLE_PF_CFG_CBACK/PARAM_CB continuation:
(available space, action, btm status). -/
abbrev CbRun := Nat × Nat × Nat

/-! ### The external Uuid value type

Modelled from the spec: the UUID value type is an external black box that
reports its minimal byte length among 16/32/128 bits and renders to
fixed-width forms. Sixteen bytes, most significant first; a UUID shortens
iff its tail matches the Bluetooth base UUID. -/

/-- Bytes 4..15 of the Bluetooth base UUID. -/
def uuidBaseTail : List Nat :=
  [0x00, 0x00, 0x10, 0x00, 0x80, 0x00, 0x00, 0x80, 0x5F, 0x9B, 0x34, 0xFB]

/-- The external 128-bit UUID value type (16 bytes, big-endian). -/
structure Uuid where
  uu : List Nat
deriving DecidableEq

/-- Uuid::kEmpty, all zeroes. -/
def Uuid.kEmpty : Uuid := ⟨List.replicate 16 0⟩

/-- Uuid::IsEmpty. -/
def Uuid.IsEmpty (u : Uuid) : Bool := u == Uuid.kEmpty

/-- Uuid::GetShortestRepresentationSize: 2, 4 or 16 bytes. -/
def Uuid.GetShortestRepresentationSize (u : Uuid) : Nat :=
  if u.uu.drop 4 != uuidBaseTail then 16
  else if u.uu.getD 0 0 == 0 && u.uu.getD 1 0 == 0 then 2
  else 4

/-- Uuid::As16Bit: bytes 2..3 as a big-endian 16-bit value. -/
def Uuid.As16Bit (u : Uuid) : Nat := u.uu.getD 2 0 * 256 + u.uu.getD 3 0

/-- Uuid::As32Bit: bytes 0..3 as a big-endian 32-bit value. -/
def Uuid.As32Bit (u : Uuid) : Nat :=
  ((u.uu.getD 0 0 * 256 + u.uu.getD 1 0) * 256 + u.uu.getD 2 0) * 256 + u.uu.getD 3 0

/-- Uuid::To128BitLE: the sixteen bytes reversed. -/
def Uuid.To128BitLE (u : Uuid) : List Nat := u.uu.reverse

/-! ### Filter-slot accounting table -/

/-- The scan loop of btm_ble_find_addr_filter_counter: runs over table
entries starting at the given index, one entry per remaining fuel unit,
returning the index of the first in-use entry bound to the address. -/
def findLoop (slots : Nat → PFCount) (bda : RawAddress) : Nat → Nat → Option Nat
  | _, 0 => none
  | i, fuel + 1 =>
    if (slots i).in_use ∧ bda = (slots i).bd_addr then some i
    else findLoop slots bda (i + 1) fuel

/-- btm_ble_find_addr_filter_counter: a null address names the reserved
generic entry 0; otherwise the loop starts at entry 1 and runs max_filter
iterations. Returns the found entry index. -/
def btm_ble_find_addr_filter_counter (maxFilter : Nat) (st : AdvFiltCB)
    (p_le_bda : Option BLE_BD_ADDR) : Option Nat :=
  match p_le_bda with
  | none => some 0
  | some a => findLoop st.slots a.bda 1 maxFilter

/-- The scan loop of btm_ble_alloc_addr_filter_counter: starting at entry 1,
binds the first entry whose stored address is empty. -/
def allocLoop (bd : RawAddress) :
    (Nat → PFCount) → Nat → Nat → (Nat → PFCount) × Option Nat
  | slots, _, 0 => (slots, none)
  | slots, i, fuel + 1 =>
    if RawAddress.IsEmpty (slots i).bd_addr then
      (setSlot slots i { slots i with bd_addr := bd, in_use := true }, some i)
    else allocLoop bd slots (i + 1) fuel

/-- The scan loop of btm_ble_dealloc_addr_filter_counter: zeroes each in-use
entry matching the address (a null address matches every in-use entry);
stops at the first match only when a specific address is given. -/
def deallocLoop (p_bd : Option BLE_BD_ADDR) :
    (Nat → PFCount) → Nat → Nat → Bool → (Nat → PFCount) × Bool
  | slots, _, 0, found => (slots, found)
  | slots, i, fuel + 1, found =>
    if (slots i).in_use && (match p_bd with
        | none => true
        | some b => b.bda == (slots i).bd_addr) then
      match p_bd with
      | some _ => (setSlot slots i zeroPFCount, true)
      | none => deallocLoop none (setSlot slots i zeroPFCount) (i + 1) fuel true
    else deallocLoop p_bd slots (i + 1) fuel found

/-- btm_ble_dealloc_addr_filter_counter: with a null address and the
all-types filter the reserved entry 0 is zeroed first; then the scan loop
runs from entry 1 for max_filter iterations. -/
def btm_ble_dealloc_addr_filter_counter (maxFilter : Nat) (st : AdvFiltCB)
    (p_bd_addr : Option BLE_BD_ADDR) (filter_type : Nat) : AdvFiltCB × Bool :=
  let slots0 := if filter_type = BTM_BLE_PF_TYPE_ALL ∧ p_bd_addr = none then
      setSlot st.slots 0 zeroPFCount
    else st.slots
  let r := deallocLoop p_bd_addr slots0 1 maxFilter false
  ({ st with slots := r.1 }, r.2)

/-- Tail of btm_ble_cs_update_pf_counter once a slot has been located:
deallocates on (all-types clear) or (address delete/clear), else increments
the per-type counter when the controller reported free space. -/
def csUpdateWithSlot (maxFilter : Nat) (st : AdvFiltCB) (idx action cond_type : Nat)
    (p_bd : Option BLE_BD_ADDR) (num_available : Nat) : AdvFiltCB × Nat :=
  if (cond_type = BTM_BLE_PF_TYPE_ALL ∧ action = BTM_BLE_SCAN_COND_CLEAR)
      ∨ (cond_type = BTM_BLE_PF_ADDR_FILTER
          ∧ (action = BTM_BLE_SCAN_COND_DELETE ∨ action = BTM_BLE_SCAN_COND_CLEAR)) then
    ((btm_ble_dealloc_addr_filter_counter maxFilter st p_bd cond_type).1,
     BTM_BLE_INVALID_COUNTER)
  else if cond_type ≠ BTM_BLE_PF_TYPE_ALL then
    if 0 < num_available then
      let slot := st.slots idx
      let c := (slot.pf_counter.getD cond_type 0 + 1) % 256
      ({ st with slots :=
          setSlot st.slots idx { slot with pf_counter := slot.pf_counter.set cond_type c } },
       c)
    else (st, (st.slots idx).pf_counter.getD cond_type 0)
  else (st, BTM_BLE_INVALID_COUNTER)

/-- The nulling of the address argument applied by btm_ble_cs_update_pf_counter
for the four condition types that are always accounted generically. -/
def forceGenericAddr (cond_type : Nat) (p : Option BLE_BD_ADDR) : Option BLE_BD_ADDR :=
  if cond_type = BTM_BLE_PF_ADDR_FILTER ∨ cond_type = BTM_BLE_PF_MANU_DATA
      ∨ cond_type = BTM_BLE_PF_LOCAL_NAME ∨ cond_type = BTM_BLE_PF_SRVC_DATA_PATTERN
  then none else p

/-- btm_ble_cs_update_pf_counter: rejects condition types above the valid
range; forces the address to null for the four generically accounted types;
finds (or, on add, allocates) the slot; then updates it. -/
def btm_ble_cs_update_pf_counter (maxFilter : Nat) (st : AdvFiltCB)
    (action cond_type : Nat) (p_bd_addr : Option BLE_BD_ADDR)
    (num_available : Nat) : AdvFiltCB × Nat :=
  if BTM_BLE_PF_TYPE_ALL < cond_type then (st, BTM_BLE_INVALID_COUNTER)
  else
    match btm_ble_find_addr_filter_counter maxFilter st
        (forceGenericAddr cond_type p_bd_addr) with
    | some idx =>
      csUpdateWithSlot maxFilter st idx action cond_type
        (forceGenericAddr cond_type p_bd_addr) num_available
    | none =>
      if action = BTM_BLE_SCAN_COND_ADD then
        match forceGenericAddr cond_type p_bd_addr with
        | some b =>
          match allocLoop b.bda st.slots 1 maxFilter with
          | (slots1, some idx) =>
            csUpdateWithSlot maxFilter { st with slots := slots1 } idx action cond_type
              (forceGenericAddr cond_type p_bd_addr) num_available
          | (slots1, none) => ({ st with slots := slots1 }, BTM_BLE_INVALID_COUNTER)
        | none => (st, BTM_BLE_INVALID_COUNTER)
      else (st, BTM_BLE_INVALID_COUNTER)

/-- btm_ble_ocf_to_condtype: subcode to condition type. -/
def btm_ble_ocf_to_condtype (ocf : Nat) : Nat :=
  if ocf = BTM_BLE_META_PF_FEAT_SEL then BTM_BLE_META_PF_FEAT_SEL
  else if ocf = BTM_BLE_META_PF_ADDR then BTM_BLE_PF_ADDR_FILTER
  else if ocf = BTM_BLE_META_PF_UUID then BTM_BLE_PF_SRVC_UUID
  else if ocf = BTM_BLE_META_PF_SOL_UUID then BTM_BLE_PF_SRVC_SOL_UUID
  else if ocf = BTM_BLE_META_PF_LOCAL_NAME then BTM_BLE_PF_LOCAL_NAME
  else if ocf = BTM_BLE_META_PF_MANU_DATA then BTM_BLE_PF_MANU_DATA
  else if ocf = BTM_BLE_META_PF_SRVC_DATA then BTM_BLE_PF_SRVC_DATA_PATTERN
  else if ocf = BTM_BLE_META_PF_ALL then BTM_BLE_PF_TYPE_ALL
  else BTM_BLE_PF_TYPE_MAX

/-! ### Completion router -/

/-- btm_flt_update_cb: validates the 4-byte ack (status, echoed subcode,
action, num available) and the echoed subcode; on any mismatch the event is
dropped with the state untouched and no continuation run. Feature-selection
acks only reach the continuation. Other acks update the accounting table on
controller success, passing the pending filter target when non-empty. -/
def btm_flt_update_cb (maxFilter : Nat) (expected_ocf : Nat) (st : AdvFiltCB)
    (evt : List Nat) : AdvFiltCB × Option CbRun :=
  if evt.length ≠ 4 then (st, none)
  else
    let status := evt.getD 0 0
    let op_subcode := evt.getD 1 0
    let action := evt.getD 2 0
    let num_avail := evt.getD 3 0
    if expected_ocf ≠ op_subcode then (st, none)
    else
      let btm_status := if status = 0 then BTM_SUCCESS else BTM_ERR_PROCESSING
      if op_subcode = BTM_BLE_META_PF_FEAT_SEL then
        (st, some (num_avail, action, btm_status))
      else
        let cond_type := btm_ble_ocf_to_condtype expected_ocf
        let st1 :=
          if status = HCI_SUCCESS then
            (btm_ble_cs_update_pf_counter maxFilter st action cond_type
              (if RawAddress.IsEmpty st.cur_filter_target.bda then none
               else some st.cur_filter_target)
              num_avail).1
          else st
        ({ st1 with op_type := 0 }, some (num_avail, action, btm_status))

/-! ### Condition encoder payloads -/

/-- BTM_LE_PF_local_name: header, then (except on clear) the name truncated
to BTM_BLE_PF_STR_LEN_MAX bytes. -/
def BTM_LE_PF_local_name_payload (action filt_index : Nat) (name : List Nat) :
    List Nat :=
  let header := [BTM_BLE_META_PF_LOCAL_NAME % 256, action % 256, filt_index % 256]
  if action ≠ BTM_BLE_SCAN_COND_CLEAR then
    header ++ name.take BTM_BLE_PF_STR_LEN_MAX
  else header

/-- BTM_LE_PF_manu_data: header; except on clear: company id, the data
(only when data is non-empty and a mask was supplied), the company id mask
(0xFFFF when the caller passed zero), then the mask bytes. The source reads
size bytes from the mask vector even if it is shorter (callers guard this);
bytes past its end are modelled as 0. -/
def BTM_LE_PF_manu_data_payload (action filt_index company_id company_id_mask : Nat)
    (data data_mask : List Nat) : List Nat :=
  let header := [BTM_BLE_META_PF_MANU_DATA % 256, action % 256, filt_index % 256]
  if action ≠ BTM_BLE_SCAN_COND_CLEAR then
    let size := min data.length (BTM_BLE_PF_STR_LEN_MAX - 2)
    header ++ UINT16B company_id
      ++ (if 0 < size ∧ data_mask.length ≠ 0 then data.take size else [])
      ++ (if company_id_mask ≠ 0 then UINT16B company_id_mask else UINT16B 0xFFFF)
      ++ (if 0 < size ∧ data_mask.length ≠ 0 then
            (List.range size).map (fun i => data_mask.getD i 0)
          else [])
  else header

/-- BTM_LE_PF_srvc_data_pattern: header; except on clear and when the data
is non-empty: the truncated data then the mask read at the same size (bytes
past the mask's end modelled as 0, as in the manufacturer encoder). -/
def BTM_LE_PF_srvc_data_pattern_payload (action filt_index : Nat)
    (data data_mask : List Nat) : List Nat :=
  let header := [BTM_BLE_META_PF_SRVC_DATA % 256, action % 256, filt_index % 256]
  if action ≠ BTM_BLE_SCAN_COND_CLEAR then
    let size := min data.length (BTM_BLE_PF_STR_LEN_MAX - 2)
    if 0 < size then
      header ++ data.take size ++ (List.range size).map (fun i => data_mask.getD i 0)
    else header
  else header

/-- BTM_LE_PF_addr_filter: the buffer length is fixed at header plus
BTM_BLE_META_ADDR_LEN and the whole buffer is sent, so on clear the seven
type-specific bytes go out as zeroes; otherwise the pseudo address is first
resolved to the identity address and the wire address type is always the
vendor-command any sentinel 0x02. -/
def BTM_LE_PF_addr_filter_payload (resolve : BLE_BD_ADDR → BLE_BD_ADDR)
    (action filt_index : Nat) (addr : BLE_BD_ADDR) : List Nat :=
  let header := [BTM_BLE_META_PF_ADDR % 256, action % 256, filt_index % 256]
  if action ≠ BTM_BLE_SCAN_COND_CLEAR then
    header ++ bdaddrToStream (resolve addr).bda ++ [0x02]
  else header ++ List.replicate BTM_BLE_META_ADDR_LEN 0

/-- The UUID or mask field rendered at the UUID's chosen width. -/
def uuidFieldBytes (n : Nat) (u : Uuid) : List Nat :=
  if n = 2 then UINT16B u.As16Bit
  else if n = 4 then UINT32B u.As32Bit
  else u.To128BitLE

/-- BTM_LE_PF_uuid_filter: header; except on clear: the UUID at its
shortest width, then the mask at the same width (all-ones when the mask is
empty). An unrecognized width yields no payload (the command is never
sent). -/
def BTM_LE_PF_uuid_filter_payload (action filt_index filter_type : Nat)
    (uuid uuid_mask : Uuid) : Option (List Nat) :=
  let evt_type := if filter_type = BTM_BLE_PF_SRVC_UUID then BTM_BLE_META_PF_UUID
    else BTM_BLE_META_PF_SOL_UUID
  let header := [evt_type % 256, action % 256, filt_index % 256]
  if action = BTM_BLE_SCAN_COND_CLEAR then some header
  else
    let n := uuid.GetShortestRepresentationSize
    if n = 2 ∨ n = 4 ∨ n = 16 then
      some (header ++ uuidFieldBytes n uuid
        ++ (if ¬ uuid_mask.IsEmpty then uuidFieldBytes n uuid_mask
            else List.replicate n 0xff))
    else none

/-! ### Stateful condition encoders

Each encoder issues one send (the payload above, tagged with the subcode its
bound completion handler expects) and then memsets cur_filter_target, except
where the source returns early. Immediate continuation runs (the synchronous
error path of the UUID encoder) are returned in the third component. -/

/-- BTM_LE_PF_local_name (stateful part). -/
def BTM_LE_PF_local_name (st : AdvFiltCB) (action filt_index : Nat)
    (name : List Nat) : AdvFiltCB × List Send × List CbRun :=
  ({ st with cur_filter_target := emptyBdAddr },
   [⟨BTM_BLE_META_PF_LOCAL_NAME, BTM_LE_PF_local_name_payload action filt_index name⟩],
   [])

/-- BTM_LE_PF_manu_data (stateful part). -/
def BTM_LE_PF_manu_data (st : AdvFiltCB) (action filt_index company_id company_id_mask : Nat)
    (data data_mask : List Nat) : AdvFiltCB × List Send × List CbRun :=
  ({ st with cur_filter_target := emptyBdAddr },
   [⟨BTM_BLE_META_PF_MANU_DATA,
     BTM_LE_PF_manu_data_payload action filt_index company_id company_id_mask data data_mask⟩],
   [])

/-- BTM_LE_PF_srvc_data_pattern (stateful part). -/
def BTM_LE_PF_srvc_data_pattern (st : AdvFiltCB) (action filt_index : Nat)
    (data data_mask : List Nat) : AdvFiltCB × List Send × List CbRun :=
  ({ st with cur_filter_target := emptyBdAddr },
   [⟨BTM_BLE_META_PF_SRVC_DATA,
     BTM_LE_PF_srvc_data_pattern_payload action filt_index data data_mask⟩],
   [])

/-- BTM_LE_PF_addr_filter (stateful part). -/
def BTM_LE_PF_addr_filter (resolve : BLE_BD_ADDR → BLE_BD_ADDR) (st : AdvFiltCB)
    (action filt_index : Nat) (addr : BLE_BD_ADDR) : AdvFiltCB × List Send × List CbRun :=
  ({ st with cur_filter_target := emptyBdAddr },
   [⟨BTM_BLE_META_PF_ADDR, BTM_LE_PF_addr_filter_payload resolve action filt_index addr⟩],
   [])

/-- BTM_LE_PF_uuid_filter (stateful part): on the unrecognized-width path
the source runs the continuation with BTM_ILLEGAL_VALUE and returns before
the send and before the cur_filter_target memset. -/
def BTM_LE_PF_uuid_filter (st : AdvFiltCB) (action filt_index filter_type : Nat)
    (uuid : Uuid) (cond_logic : Nat) (uuid_mask : Uuid) :
    AdvFiltCB × List Send × List CbRun :=
  let evt_type := if filter_type = BTM_BLE_PF_SRVC_UUID then BTM_BLE_META_PF_UUID
    else BTM_BLE_META_PF_SOL_UUID
  match BTM_LE_PF_uuid_filter_payload action filt_index filter_type uuid uuid_mask with
  | some payload => ({ st with cur_filter_target := emptyBdAddr }, [⟨evt_type, payload⟩], [])
  | none => (st, [], [(0, BTM_BLE_PF_CONFIG, BTM_ILLEGAL_VALUE)])

/-- BTM_LE_PF_srvc_data: no command is sent; the accounting table is
updated directly with a null address (num available 0 on add, 1 otherwise). -/
def BTM_LE_PF_srvc_data (vsc : VscCb) (st : AdvFiltCB) (action filt_index : Nat) :
    AdvFiltCB :=
  let num_avail := if action = BTM_BLE_SCAN_COND_ADD then 0 else 1
  (btm_ble_cs_update_pf_counter vsc.max_filter st action BTM_BLE_PF_SRVC_DATA none
    num_avail).1

/-! ### BTM_LE_PF_set -/

/-- An ApcfCommand handed to the batch set operation. -/
structure ApcfCommand where
  type : Nat
  address : RawAddress
  addr_type : Nat
  uuid : Uuid
  uuid_mask : Uuid
  name : List Nat
  company : Nat
  company_mask : Nat
  data : List Nat
  data_mask : List Nat
  irk : List Nat
deriving DecidableEq

/-- is_empty_128bit over the sixteen IRK bytes. -/
def is_empty_128bit (d : List Nat) : Bool :=
  (List.range 16).all (fun i => d.getD i 0 == 0)

/-- The batch loop's skip condition: data and mask both non-empty but of
different lengths. -/
def apcfSizeMismatch (cmd : ApcfCommand) : Bool :=
  cmd.data.length != cmd.data_mask.length && cmd.data.length != 0
    && cmd.data_mask.length != 0

/-- Accumulator of the batch loop: module state, sends issued so far, and
whether one of the early returns inside the IRK path fired (aborting the
whole operation, final callback included). -/
structure SetAcc where
  ms : ModuleState
  sends : List Send
  aborted : Bool

/-- The prior-mapping cleanup of the IRK path: if this filter index already
maps to an address, delete that device record unless bonded; a failed
deletion aborts the whole operation without erasing the mapping; otherwise
the mapping entry is erased. -/
def irkCleanupPrev (ms : ModuleState) (filt_index : Nat) : ModuleState × Bool :=
  match mapLookup ms.remove_me_later filt_index with
  | none => (ms, false)
  | some prev =>
    if btm_sec_is_a_bonded_dev ms.sec prev then
      ({ ms with remove_me_later := mapErase ms.remove_me_later filt_index }, false)
    else
      match BTM_SecDeleteDevice ms.sec prev with
      | (sec1, true) =>
        ({ ms with
            sec := sec1,
            remove_me_later := mapErase ms.remove_me_later filt_index },
         false)
      | (sec1, false) => ({ ms with sec := sec1 }, true)

/-- The registration step of the IRK path: aborts when a device record for
the target address already exists; otherwise allocates a temporary record,
remembers the filter-index-to-address mapping, and installs the IRK. -/
def irkRegister (ms : ModuleState) (filt_index : Nat) (cmd : ApcfCommand) :
    ModuleState × Bool :=
  if btm_find_dev ms.sec cmd.address then (ms, true)
  else
    ({ ms with
        sec := BTM_SecAddBleKey (btm_sec_alloc_dev ms.sec cmd.address) cmd.address cmd.irk,
        remove_me_later := mapEmplace ms.remove_me_later filt_index cmd.address },
     false)

/-- The IRK bookkeeping of the address branch once the prior-mapping
cleanup and registration run in sequence. -/
def processAddrIrk (ms1 : ModuleState) (sends1 : List Send) (filt_index : Nat)
    (cmd : ApcfCommand) : SetAcc :=
  match irkCleanupPrev ms1 filt_index with
  | (ms2, true) => { ms := ms2, sends := sends1, aborted := true }
  | (ms2, false) =>
    match irkRegister ms2 filt_index cmd with
    | (ms3, ab) => { ms := ms3, sends := sends1, aborted := ab }

/-- One iteration of the BTM_LE_PF_set loop over a command (the action is
always add). Size-mismatched commands are skipped outright; unknown types
fall through with no effect; the per-send continuations are DoNothing so
their runs are dropped. -/
def processApcfCommand (resolve : BLE_BD_ADDR → BLE_BD_ADDR) (vsc : VscCb)
    (filt_index : Nat) (acc : SetAcc) (cmd : ApcfCommand) : SetAcc :=
  if apcfSizeMismatch cmd then acc
  else if cmd.type = BTM_BLE_PF_ADDR_FILTER then
    match BTM_LE_PF_addr_filter resolve acc.ms.cb BTM_BLE_SCAN_COND_ADD filt_index
        ⟨to_ble_addr_type cmd.addr_type, cmd.address⟩ with
    | (cb1, sends1, _) =>
      if is_empty_128bit cmd.irk then
        { acc with ms := { acc.ms with cb := cb1 }, sends := acc.sends ++ sends1 }
      else
        processAddrIrk { acc.ms with cb := cb1 } (acc.sends ++ sends1) filt_index cmd
  else if cmd.type = BTM_BLE_PF_SRVC_DATA then
    { acc with ms := { acc.ms with
        cb := BTM_LE_PF_srvc_data vsc acc.ms.cb BTM_BLE_SCAN_COND_ADD filt_index } }
  else if cmd.type = BTM_BLE_PF_SRVC_UUID ∨ cmd.type = BTM_BLE_PF_SRVC_SOL_UUID then
    match BTM_LE_PF_uuid_filter acc.ms.cb BTM_BLE_SCAN_COND_ADD filt_index cmd.type
        cmd.uuid BTM_BLE_PF_LOGIC_AND cmd.uuid_mask with
    | (cb1, sends1, _) =>
      { acc with ms := { acc.ms with cb := cb1 }, sends := acc.sends ++ sends1 }
  else if cmd.type = BTM_BLE_PF_LOCAL_NAME then
    match BTM_LE_PF_local_name acc.ms.cb BTM_BLE_SCAN_COND_ADD filt_index cmd.name with
    | (cb1, sends1, _) =>
      { acc with ms := { acc.ms with cb := cb1 }, sends := acc.sends ++ sends1 }
  else if cmd.type = BTM_BLE_PF_MANU_DATA then
    match BTM_LE_PF_manu_data acc.ms.cb BTM_BLE_SCAN_COND_ADD filt_index
        cmd.company cmd.company_mask cmd.data cmd.data_mask with
    | (cb1, sends1, _) =>
      { acc with ms := { acc.ms with cb := cb1 }, sends := acc.sends ++ sends1 }
  else if cmd.type = BTM_BLE_PF_SRVC_DATA_PATTERN then
    match BTM_LE_PF_srvc_data_pattern acc.ms.cb BTM_BLE_SCAN_COND_ADD filt_index
        cmd.data cmd.data_mask with
    | (cb1, sends1, _) =>
      { acc with ms := { acc.ms with cb := cb1 }, sends := acc.sends ++ sends1 }
  else acc

/-- The batch loop body: once an early return fired, the remaining commands
are not processed. -/
def setStep (resolve : BLE_BD_ADDR → BLE_BD_ADDR) (vsc : VscCb) (filt_index : Nat)
    (acc : SetAcc) (cmd : ApcfCommand) : SetAcc :=
  if acc.aborted then acc else processApcfCommand resolve vsc filt_index acc cmd

/-- BTM_LE_PF_set: unsupported filtering fails fast with the fixed status;
otherwise the commands are processed in order and, unless an early return
fired, the caller's continuation runs exactly once at the end with success. -/
def BTM_LE_PF_set (vsc : VscCb) (resolve : BLE_BD_ADDR → BLE_BD_ADDR)
    (ms : ModuleState) (filt_index : Nat) (commands : List ApcfCommand) :
    ModuleState × List Send × List CbRun :=
  if ¬ is_filtering_supported vsc then
    (ms, [], [(0, BTM_BLE_PF_ENABLE, BTM_MODE_UNSUPPORTED)])
  else
    let acc := commands.foldl (setStep resolve vsc filt_index) ⟨ms, [], false⟩
    (acc.ms, acc.sends, if acc.aborted then [] else [(0, 0, BTM_SUCCESS)])

/-! ### BTM_LE_PF_clear, BTM_BleAdvFilterParamSetup, enable/disable, init -/

/-- BTM_LE_PF_clear: clears every generic condition for the filter index
(manufacturer data, local name, service data, both UUID kinds, service-data
pattern), deletes the mapped temporary device record when not bonded (the
mapping entry itself is never erased here), then de-selects all features
for the index with a feature-selection clear command. -/
def BTM_LE_PF_clear (vsc : VscCb) (ms : ModuleState) (filt_index : Nat) :
    ModuleState × List Send × List CbRun :=
  if ¬ is_filtering_supported vsc then
    (ms, [], [(0, BTM_BLE_PF_ENABLE, BTM_MODE_UNSUPPORTED)])
  else
    let r1 := BTM_LE_PF_manu_data ms.cb BTM_BLE_SCAN_COND_CLEAR filt_index 0 0 [] []
    let r2 := BTM_LE_PF_local_name r1.1 BTM_BLE_SCAN_COND_CLEAR filt_index []
    let cb3 := BTM_LE_PF_srvc_data vsc r2.1 BTM_BLE_SCAN_COND_CLEAR filt_index
    let r4 := BTM_LE_PF_uuid_filter cb3 BTM_BLE_SCAN_COND_CLEAR filt_index
      BTM_BLE_PF_SRVC_UUID Uuid.kEmpty 0 Uuid.kEmpty
    let r5 := BTM_LE_PF_uuid_filter r4.1 BTM_BLE_SCAN_COND_CLEAR filt_index
      BTM_BLE_PF_SRVC_SOL_UUID Uuid.kEmpty 0 Uuid.kEmpty
    let r6 := BTM_LE_PF_srvc_data_pattern r5.1 BTM_BLE_SCAN_COND_CLEAR filt_index [] []
    let sec1 := match mapLookup ms.remove_me_later filt_index with
      | some a =>
        if ¬ btm_sec_is_a_bonded_dev ms.sec a then (BTM_SecDeleteDevice ms.sec a).1
        else ms.sec
      | none => ms.sec
    let featPayload := [BTM_BLE_META_PF_FEAT_SEL % 256, BTM_BLE_SCAN_COND_CLEAR % 256,
        filt_index % 256]
      ++ UINT32B BTM_BLE_PF_SELECT_NONE ++ UINT8B BTM_BLE_PF_LOGIC_OR
      ++ List.replicate 13 0
    ({ ms with cb := { r6.1 with cur_filter_target := emptyBdAddr }, sec := sec1 },
     r1.2.1 ++ r2.2.1 ++ r4.2.1 ++ r5.2.1 ++ r6.2.1
       ++ [⟨BTM_BLE_META_PF_FEAT_SEL, featPayload⟩],
     [])

/-- btgatt_filt_param_setup_t. -/
structure FiltParams where
  feat_seln : Nat
  list_logic_type : Nat
  filt_logic_type : Nat
  rssi_high_thres : Nat
  rssi_low_thres : Nat
  dely_mode : Nat
  found_timeout : Nat
  lost_timeout : Nat
  found_timeout_cnt : Nat
  num_of_tracking_entries : Nat
deriving DecidableEq

/-- The feature-selection add payload of BTM_BleAdvFilterParamSetup: the
delivery-mode and chip-version state machine choosing among the wire-length
variants; the buffer is zero-filled and sent at the computed length. -/
def advFilterParamAddPayload (vsc : VscCb) (filt_index : Nat) (fp : FiltParams) :
    List Nat :=
  let written := [BTM_BLE_META_PF_FEAT_SEL % 256, BTM_BLE_SCAN_COND_ADD % 256,
      filt_index % 256]
    ++ UINT16B fp.feat_seln ++ UINT16B fp.list_logic_type
    ++ UINT8B fp.filt_logic_type ++ UINT8B fp.rssi_high_thres ++ UINT8B fp.dely_mode
    ++ (if fp.dely_mode = 1 then
          UINT16B fp.found_timeout ++ UINT8B fp.found_timeout_cnt
            ++ UINT8B fp.rssi_low_thres ++ UINT16B fp.lost_timeout
            ++ (if BTM_VSC_CHIP_CAPABILITY_L_VERSION < vsc.version_supported then
                  UINT16B fp.num_of_tracking_entries
                else [])
        else [])
  let len := if vsc.version_supported = BTM_VSC_CHIP_CAPABILITY_L_VERSION then
      BTM_BLE_ADV_FILT_META_HDR_LENGTH + BTM_BLE_ADV_FILT_FEAT_SELN_LEN
    else BTM_BLE_ADV_FILT_META_HDR_LENGTH + BTM_BLE_ADV_FILT_FEAT_SELN_LEN
      + BTM_BLE_ADV_FILT_TRACK_NUM
  (written ++ List.replicate len 0).take len

/-- BTM_BleAdvFilterParamSetup: add sends the feature-selection payload
(after the always-successful generic-slot lookup); delete sends the bare
header and then runs the identity-record cleanup, returning early (mapping
retained) when an unbonded device record could not be deleted; clear
deallocates every slot and sends a two-byte header with no filter index. -/
def BTM_BleAdvFilterParamSetup (vsc : VscCb) (ms : ModuleState)
    (action filt_index : Nat) (fp : FiltParams) : ModuleState × List Send × List CbRun :=
  if ¬ is_filtering_supported vsc then
    (ms, [], [(0, BTM_BLE_PF_ENABLE, btm_status_value BTM_MODE_UNSUPPORTED)])
  else if action = BTM_BLE_SCAN_COND_ADD then
    match btm_ble_find_addr_filter_counter vsc.max_filter ms.cb none with
    | none => (ms, [], [(0, BTM_BLE_PF_ENABLE, btm_status_value BTM_UNKNOWN_ADDR)])
    | some _ =>
      (ms, [⟨BTM_BLE_META_PF_FEAT_SEL, advFilterParamAddPayload vsc filt_index fp⟩], [])
  else if action = BTM_BLE_SCAN_COND_DELETE then
    let send : Send := ⟨BTM_BLE_META_PF_FEAT_SEL,
      [BTM_BLE_META_PF_FEAT_SEL % 256, BTM_BLE_SCAN_COND_DELETE % 256, filt_index % 256]⟩
    match mapLookup ms.remove_me_later filt_index with
    | some prev =>
      if btm_sec_is_a_bonded_dev ms.sec prev then
        ({ ms with remove_me_later := mapErase ms.remove_me_later filt_index },
         [send], [])
      else
        match BTM_SecDeleteDevice ms.sec prev with
        | (sec1, true) =>
          ({ ms with
              sec := sec1,
              remove_me_later := mapErase ms.remove_me_later filt_index },
           [send], [])
        | (sec1, false) => ({ ms with sec := sec1 }, [send], [])
    | none => (ms, [send], [])
  else if action = BTM_BLE_SCAN_COND_CLEAR then
    let r := btm_ble_dealloc_addr_filter_counter vsc.max_filter ms.cb none
      BTM_BLE_PF_TYPE_ALL
    ({ ms with cb := r.1 },
     [⟨BTM_BLE_META_PF_FEAT_SEL,
       [BTM_BLE_META_PF_FEAT_SEL % 256, BTM_BLE_SCAN_COND_CLEAR % 256]⟩],
     [])
  else (ms, [], [])

/-- BTM_BleEnableDisableFilterFeature: unsupported filtering reports the
fixed status through the status callback when one was supplied; otherwise
the two-byte enable command goes out. Returns (sends, status-callback runs). -/
def BTM_BleEnableDisableFilterFeature (vsc : VscCb) (enable : Nat)
    (cb_valid : Bool) : List Send × List (Nat × Nat) :=
  if ¬ is_filtering_supported vsc then
    ([], if cb_valid then [(BTM_BLE_PF_ENABLE, BTM_MODE_UNSUPPORTED)] else [])
  else
    ([⟨BTM_BLE_META_PF_ENABLE, [BTM_BLE_META_PF_ENABLE % 256, enable % 256]⟩], [])

/-- btm_ble_adv_filter_init: the control block is memset to zero; the slot
array is allocated with max_filter entries (the source allocates without
explicitly zeroing the entries; the zero-filled contents the accounting
logic presumes are modelled). -/
def btm_ble_adv_filter_init_cb : AdvFiltCB :=
  ⟨fun _ => zeroPFCount, emptyBdAddr, 0⟩

/-- Number of tBTM_BLE_PF_COUNT entries allocated by btm_ble_adv_filter_init
for p_addr_filter_count: sizeof(tBTM_BLE_PF_COUNT) * max_filter bytes. -/
def allocatedSlotEntries (vsc : VscCb) : Nat := vsc.max_filter

/-- The slot-table indices dereferenced by the scan loops of find, alloc and
dealloc: the running pointer starts at element 1 and the loop executes
max_filter iterations (i = 0 .. max_filter - 1, dereferencing element
i + 1). -/
def scanTouchedIndices (maxFilter : Nat) : List Nat :=
  (List.range maxFilter).map (fun i => i + 1)

/-- A module state over a fresh control block. -/
def initModuleState (sec : SecState) : ModuleState :=
  ⟨btm_ble_adv_filter_init_cb, [], sec⟩

/-! ### Concrete sample values used by witnesses and counterexamples -/

/-- The address AA:BB:CC:DD:EE:FF of the round-trip scenario. -/
def addrAA : RawAddress := [0xAA, 0xBB, 0xCC, 0xDD, 0xEE, 0xFF]

/-- That address as a typed BLE address. -/
def bdAA : BLE_BD_ADDR := ⟨0, addrAA⟩

/-- A second sample address. -/
def addrX : RawAddress := [1, 2, 3, 4, 5, 6]

/-- A capability record with filtering supported and three filter slots. -/
def vscSupported : VscCb := ⟨1, 3, 0⟩

/-- A capability record with filter support absent. -/
def vscUnsupported : VscCb := ⟨0, 3, 0⟩

/-- An identity resolution that leaves the address unchanged. -/
def idResolve : BLE_BD_ADDR → BLE_BD_ADDR := fun a => a

/-- An empty security-manager state. -/
def secEmpty : SecState := ⟨[], [], [], []⟩

/-- The generic slot after one acknowledged address-filter add: not in use,
no bound address, the ADDR_FILTER counter at 1. -/
def slotAddOne : PFCount := ⟨false, emptyAddress, [1, 0, 0, 0, 0, 0, 0, 0]⟩

/-- Control-block state after the acknowledged address-filter add of the
round-trip scenario: the encoder for the add left the pending target empty,
then a success ack echoing the address subcode with add action and one
available slot was routed. -/
def stAddAck (m : Nat) : AdvFiltCB :=
  (btm_flt_update_cb m BTM_BLE_META_PF_ADDR btm_ble_adv_filter_init_cb
    [0, BTM_BLE_META_PF_ADDR, BTM_BLE_SCAN_COND_ADD, 1]).1

/-- Control-block state after the subsequent acknowledged delete for the
same address. -/
def stDelAck (m : Nat) : AdvFiltCB :=
  (btm_flt_update_cb m BTM_BLE_META_PF_ADDR (stAddAck m)
    [0, BTM_BLE_META_PF_ADDR, BTM_BLE_SCAN_COND_DELETE, 1]).1

/-- A table with an in-use per-address slot at entry 1. -/
def stC : AdvFiltCB :=
  ⟨setSlot (fun _ => zeroPFCount) 1 ⟨true, addrAA, List.replicate 8 0⟩, emptyBdAddr, 0⟩

/-- A capability record with exactly one filter slot. -/
def vscOne : VscCb := ⟨1, 1, 0⟩

/-- A fresh table: no slot matches any address. -/
def stOutA : AdvFiltCB := btm_ble_adv_filter_init_cb

/-- The fresh table with table entry 1 bound to the sample address; when
max_filter = 1 this entry lies one past the allocated array. -/
def stOutB : AdvFiltCB :=
  { stOutA with slots := setSlot stOutA.slots 1 ⟨true, addrAA, List.replicate 8 0⟩ }

/-- A module state with a pending identity-record mapping for filter index 5
whose unbonded, deletable device record exists. -/
def msMapX : ModuleState :=
  ⟨btm_ble_adv_filter_init_cb, [(5, addrX)], ⟨[addrX], [], [], []⟩⟩

/-- A module state where a device record for addrX already exists. -/
def msRecX : ModuleState :=
  ⟨btm_ble_adv_filter_init_cb, [], ⟨[addrX], [], [], []⟩⟩

/-- An address-filter command carrying a non-empty IRK for addrX. -/
def cmdIrkX : ApcfCommand :=
  ⟨BTM_BLE_PF_ADDR_FILTER, addrX, 0, Uuid.kEmpty, Uuid.kEmpty, [], 0, 0, [], [],
   List.replicate 16 1⟩

/-- A local-name command whose data and mask are both non-empty but of
different lengths (the batch loop skips it). -/
def cmdMismatch : ApcfCommand :=
  ⟨BTM_BLE_PF_LOCAL_NAME, emptyAddress, 0, Uuid.kEmpty, Uuid.kEmpty, [9], 0, 0,
   [1], [2, 3], []⟩

/-- All-zero filter parameters. -/
def fpZero : FiltParams := ⟨0, 0, 0, 0, 0, 0, 0, 0, 0, 0⟩

/-- A clean module state over the empty security state. -/
def msClean : ModuleState := initModuleState secEmpty

/-! ### Helper lemmas about the scan loops -/

/-- A scan over slots none of which is in use finds nothing. -/
theorem findLoop_none (slots : Nat → PFCount) (bda : RawAddress) :
    ∀ (fuel i : Nat), (∀ j, i ≤ j → (slots j).in_use = false) →
      findLoop slots bda i fuel = none := by
  intro fuel
  induction fuel with
  | zero => intro i _; rfl
  | succ n ih =>
    intro i h
    unfold findLoop
    rw [if_neg]
    · exact ih (i + 1) (fun j hj => h j (by omega))
    · intro hc
      exact absurd hc.1 (by simp [h i (Nat.le_refl i)])

/-- A deallocation scan over slots none of which is in use changes nothing. -/
theorem deallocLoop_no_inuse (p_bd : Option BLE_BD_ADDR) (slots : Nat → PFCount) :
    ∀ (fuel i : Nat) (found : Bool), (∀ j, i ≤ j → (slots j).in_use = false) →
      deallocLoop p_bd slots i fuel found = (slots, found) := by
  intro fuel
  induction fuel with
  | zero => intro i found _; rfl
  | succ n ih =>
    intro i found h
    unfold deallocLoop
    rw [if_neg]
    · exact ih (i + 1) found (fun j hj => h j (by omega))
    · intro hc
      rw [Bool.and_eq_true] at hc
      exact absurd hc.1 (by simp [h i (Nat.le_refl i)])

/-- Step equation of the null-address deallocation scan on an in-use slot. -/
theorem deallocLoop_succ_inuse (slots : Nat → PFCount) (i n : Nat) (found : Bool)
    (hin : (slots i).in_use = true) :
    deallocLoop none slots i (n + 1) found
      = deallocLoop none (setSlot slots i zeroPFCount) (i + 1) n true := by
  conv_lhs => rw [deallocLoop]
  simp [hin]

/-- Step equation of the null-address deallocation scan on a free slot. -/
theorem deallocLoop_succ_free (slots : Nat → PFCount) (i n : Nat) (found : Bool)
    (hin : (slots i).in_use = false) :
    deallocLoop none slots i (n + 1) found
      = deallocLoop none slots (i + 1) n found := by
  conv_lhs => rw [deallocLoop]
  simp [hin]

/-- Pointwise effect of the deallocation scan with a null address: every
in-use slot in the scanned window is zeroed, everything else is untouched. -/
theorem deallocLoop_none_slots :
    ∀ (fuel : Nat) (slots : Nat → PFCount) (i : Nat) (found : Bool) (j : Nat),
      (deallocLoop none slots i fuel found).1 j
        = if i ≤ j ∧ j < i + fuel ∧ (slots j).in_use = true then zeroPFCount
          else slots j := by
  intro fuel
  induction fuel with
  | zero =>
    intro slots i found j
    rw [if_neg]
    · rfl
    · intro hc
      omega
  | succ n ih =>
    intro slots i found j
    by_cases hin : (slots i).in_use = true
    · rw [deallocLoop_succ_inuse slots i n found hin]
      rw [ih (setSlot slots i zeroPFCount) (i + 1) true j]
      by_cases hji : j = i
      · subst hji
        rw [if_neg (by omega), if_pos ⟨Nat.le_refl j, by omega, hin⟩]
        simp [setSlot]
      · have hss : setSlot slots i zeroPFCount j = slots j := by
          simp [setSlot, hji]
        rw [hss]
        by_cases hc : i + 1 ≤ j ∧ j < i + 1 + n ∧ (slots j).in_use = true
        · rw [if_pos hc, if_pos ⟨by omega, by omega, hc.2.2⟩]
        · rw [if_neg hc, if_neg]
          intro hc2
          obtain ⟨h1, h2, h3⟩ := hc2
          exact hc ⟨by omega, by omega, h3⟩
    · rw [Bool.not_eq_true] at hin
      rw [deallocLoop_succ_free slots i n found hin]
      rw [ih slots (i + 1) found j]
      by_cases hji : j = i
      · subst hji
        rw [if_neg (by omega), if_neg]
        intro hc2
        rw [hin] at hc2
        exact absurd hc2.2.2 (by simp)
      · by_cases hc : i + 1 ≤ j ∧ j < i + 1 + n ∧ (slots j).in_use = true
        · rw [if_pos hc, if_pos ⟨by omega, by omega, hc.2.2⟩]
        · rw [if_neg hc, if_neg]
          intro hc2
          obtain ⟨h1, h2, h3⟩ := hc2
          exact hc ⟨by omega, by omega, h3⟩

/-! ### The accounting table never touches the pending filter target -/

/-- Deallocation only rewrites the slot table. -/
theorem dealloc_target (maxFilter : Nat) (st : AdvFiltCB)
    (p_bd_addr : Option BLE_BD_ADDR) (filter_type : Nat) :
    ((btm_ble_dealloc_addr_filter_counter maxFilter st p_bd_addr
        filter_type).1).cur_filter_target = st.cur_filter_target := rfl

/-- The located-slot update only rewrites the slot table. -/
theorem csUpdateWithSlot_target (maxFilter : Nat) (st : AdvFiltCB)
    (idx action cond_type : Nat) (p_bd : Option BLE_BD_ADDR) (num_available : Nat) :
    ((csUpdateWithSlot maxFilter st idx action cond_type p_bd
        num_available).1).cur_filter_target = st.cur_filter_target := by
  unfold csUpdateWithSlot
  split
  · exact dealloc_target maxFilter st p_bd cond_type
  · split
    · split
      · rfl
      · rfl
    · rfl

/-- The counter update only rewrites the slot table. -/
theorem cs_update_target (maxFilter : Nat) (st : AdvFiltCB) (action cond_type : Nat)
    (p_bd_addr : Option BLE_BD_ADDR) (num_available : Nat) :
    ((btm_ble_cs_update_pf_counter maxFilter st action cond_type p_bd_addr
        num_available).1).cur_filter_target = st.cur_filter_target := by
  unfold btm_ble_cs_update_pf_counter
  split
  · rfl
  · split
    · apply csUpdateWithSlot_target
    · split
      · split
        · split
          · apply csUpdateWithSlot_target
          · rfl
        · rfl
      · rfl

/-- The counter update alters no field but the slot table (state shape). -/
theorem cs_update_op_type (maxFilter : Nat) (st : AdvFiltCB) (action cond_type : Nat)
    (p_bd_addr : Option BLE_BD_ADDR) (num_available : Nat) :
    ((btm_ble_cs_update_pf_counter maxFilter st action cond_type p_bd_addr
        num_available).1).op_type = st.op_type := by
  unfold btm_ble_cs_update_pf_counter csUpdateWithSlot
    btm_ble_dealloc_addr_filter_counter
  repeat' split
  all_goals rfl

/-! ### The external UUID type only reports the three recognized widths -/

/-- GetShortestRepresentationSize is 2, 4 or 16. -/
theorem uuid_size_cases (u : Uuid) :
    u.GetShortestRepresentationSize = 2 ∨ u.GetShortestRepresentationSize = 4
      ∨ u.GetShortestRepresentationSize = 16 := by
  unfold Uuid.GetShortestRepresentationSize
  split
  · right; right; rfl
  · split
    · left; rfl
    · right; left; rfl

/-- The UUID encoder always has a payload: the unrecognized-width error
path is unreachable for the modelled external type. -/
theorem uuid_payload_isSome (action filt_index filter_type : Nat) (u um : Uuid) :
    (BTM_LE_PF_uuid_filter_payload action filt_index filter_type u um).isSome = true := by
  unfold BTM_LE_PF_uuid_filter_payload
  by_cases hact : action = BTM_BLE_SCAN_COND_CLEAR
  · simp [hact]
  · rcases uuid_size_cases u with h | h | h <;> simp [hact, h]

/-! ### Batch-loop lemmas -/

/-- A size-mismatched command is a complete no-op of the batch loop. -/
theorem setStep_mismatch (resolve : BLE_BD_ADDR → BLE_BD_ADDR) (vsc : VscCb)
    (filt_index : Nat) (acc : SetAcc) (cmd : ApcfCommand)
    (h : apcfSizeMismatch cmd = true) :
    setStep resolve vsc filt_index acc cmd = acc := by
  unfold setStep processApcfCommand
  by_cases ha : acc.aborted = true <;> simp [ha, h]

/-- Dropping the size-mismatched commands from a batch does not change the
result of the loop. -/
theorem foldl_setStep_filter (resolve : BLE_BD_ADDR → BLE_BD_ADDR) (vsc : VscCb)
    (filt_index : Nat) :
    ∀ (l : List ApcfCommand) (acc : SetAcc),
      (l.filter (fun c => !apcfSizeMismatch c)).foldl (setStep resolve vsc filt_index) acc
        = l.foldl (setStep resolve vsc filt_index) acc := by
  intro l
  induction l with
  | nil => intro acc; rfl
  | cons c t ih =>
    intro acc
    rw [List.filter_cons, List.foldl_cons]
    by_cases h : apcfSizeMismatch c = true
    · simp only [h, Bool.not_true]
      rw [if_neg (by decide)]
      rw [setStep_mismatch resolve vsc filt_index acc c h]
      exact ih acc
    · rw [Bool.not_eq_true] at h
      simp only [h, Bool.not_false]
      rw [if_pos trivial, List.foldl_cons]
      exact ih (setStep resolve vsc filt_index acc c)

/-- A command that is not an address filter carrying a non-empty IRK never
fires an early return. -/
theorem processApcfCommand_noabort (resolve : BLE_BD_ADDR → BLE_BD_ADDR) (vsc : VscCb)
    (filt_index : Nat) (acc : SetAcc) (cmd : ApcfCommand)
    (hirk : cmd.type = BTM_BLE_PF_ADDR_FILTER → is_empty_128bit cmd.irk = true) :
    (processApcfCommand resolve vsc filt_index acc cmd).aborted = acc.aborted := by
  unfold processApcfCommand
  by_cases h1 : apcfSizeMismatch cmd = true
  · simp [h1]
  · rw [Bool.not_eq_true] at h1
    by_cases h2 : cmd.type = BTM_BLE_PF_ADDR_FILTER
    · simp [h1, h2, hirk h2]
    · by_cases h3 : cmd.type = BTM_BLE_PF_SRVC_DATA
      · simp [h1, h2, h3, BTM_BLE_PF_ADDR_FILTER, BTM_BLE_PF_SRVC_DATA]
      · by_cases h4 : cmd.type = BTM_BLE_PF_SRVC_UUID ∨ cmd.type = BTM_BLE_PF_SRVC_SOL_UUID
        · rcases h4 with h4 | h4 <;>
            simp [h1, h2, h3, h4, BTM_BLE_PF_ADDR_FILTER, BTM_BLE_PF_SRVC_DATA,
              BTM_BLE_PF_SRVC_UUID, BTM_BLE_PF_SRVC_SOL_UUID]
        · by_cases h5 : cmd.type = BTM_BLE_PF_LOCAL_NAME
          · simp [h1, h2, h3, h4, h5, BTM_BLE_PF_ADDR_FILTER, BTM_BLE_PF_SRVC_DATA,
              BTM_BLE_PF_SRVC_UUID, BTM_BLE_PF_SRVC_SOL_UUID, BTM_BLE_PF_LOCAL_NAME]
          · by_cases h6 : cmd.type = BTM_BLE_PF_MANU_DATA
            · simp [h1, h2, h3, h4, h5, h6, BTM_BLE_PF_ADDR_FILTER, BTM_BLE_PF_SRVC_DATA,
                BTM_BLE_PF_SRVC_UUID, BTM_BLE_PF_SRVC_SOL_UUID, BTM_BLE_PF_LOCAL_NAME,
                BTM_BLE_PF_MANU_DATA]
            · by_cases h7 : cmd.type = BTM_BLE_PF_SRVC_DATA_PATTERN
              · simp [h1, h2, h3, h4, h5, h6, h7, BTM_BLE_PF_ADDR_FILTER,
                  BTM_BLE_PF_SRVC_DATA, BTM_BLE_PF_SRVC_UUID, BTM_BLE_PF_SRVC_SOL_UUID,
                  BTM_BLE_PF_LOCAL_NAME, BTM_BLE_PF_MANU_DATA,
                  BTM_BLE_PF_SRVC_DATA_PATTERN]
              · simp [h1, h2, h3, h4, h5, h6, h7]

/-- Over a batch with no non-empty-IRK address command, the loop never
aborts. -/
theorem foldl_setStep_noabort (resolve : BLE_BD_ADDR → BLE_BD_ADDR) (vsc : VscCb)
    (filt_index : Nat) :
    ∀ (l : List ApcfCommand) (acc : SetAcc),
      (∀ cmd ∈ l, cmd.type = BTM_BLE_PF_ADDR_FILTER → is_empty_128bit cmd.irk = true) →
      (l.foldl (setStep resolve vsc filt_index) acc).aborted = acc.aborted := by
  intro l
  induction l with
  | nil => intro acc _; rfl
  | cons c t ih =>
    intro acc h
    rw [List.foldl_cons, ih _ (fun cmd hm => h cmd (List.mem_cons_of_mem c hm))]
    unfold setStep
    by_cases ha : acc.aborted = true
    · simp [ha]
    · rw [if_neg (by simp [ha])]
      exact processApcfCommand_noabort resolve vsc filt_index acc c
        (h c (List.mem_cons_self c t))

/-- The prior-mapping cleanup never touches the control block. -/
theorem irkCleanupPrev_cb (ms : ModuleState) (filt_index : Nat) :
    (irkCleanupPrev ms filt_index).1.cb = ms.cb := by
  unfold irkCleanupPrev
  repeat' split
  all_goals rfl

/-- The IRK registration never touches the control block. -/
theorem irkRegister_cb (ms : ModuleState) (filt_index : Nat) (cmd : ApcfCommand) :
    (irkRegister ms filt_index cmd).1.cb = ms.cb := by
  unfold irkRegister
  split
  · rfl
  · rfl

/-- The IRK bookkeeping never touches the control block. -/
theorem processAddrIrk_cb (ms1 : ModuleState) (sends1 : List Send) (filt_index : Nat)
    (cmd : ApcfCommand) :
    (processAddrIrk ms1 sends1 filt_index cmd).ms.cb = ms1.cb := by
  unfold processAddrIrk
  split
  · rename_i ms2 heq
    have hc := irkCleanupPrev_cb ms1 filt_index
    rw [heq] at hc
    exact hc
  · rename_i ms2 heq
    split
    rename_i ms3 ab heq2
    have hr := irkRegister_cb ms2 filt_index cmd
    rw [heq2] at hr
    have hc := irkCleanupPrev_cb ms1 filt_index
    rw [heq] at hc
    exact hr.trans hc

/-- The UUID encoder always ends with an empty pending filter target (the
error path that skips the reset is unreachable for the modelled external
type). -/
theorem uuid_filter_target (st : AdvFiltCB) (action filt_index filter_type : Nat)
    (u : Uuid) (cond_logic : Nat) (um : Uuid) :
    ((BTM_LE_PF_uuid_filter st action filt_index filter_type u cond_logic
        um).1).cur_filter_target = emptyBdAddr := by
  have hs := uuid_payload_isSome action filt_index filter_type u um
  cases hp : BTM_LE_PF_uuid_filter_payload action filt_index filter_type u um with
  | some pl => simp [BTM_LE_PF_uuid_filter, hp]
  | none => rw [hp] at hs; exact absurd hs (by simp)

/-- Every iteration of the batch loop leaves the pending filter target
empty when it was empty before it. -/
theorem processApcfCommand_target (resolve : BLE_BD_ADDR → BLE_BD_ADDR) (vsc : VscCb)
    (filt_index : Nat) (acc : SetAcc) (cmd : ApcfCommand)
    (h : acc.ms.cb.cur_filter_target = emptyBdAddr) :
    (processApcfCommand resolve vsc filt_index acc cmd).ms.cb.cur_filter_target
      = emptyBdAddr := by
  unfold processApcfCommand
  by_cases h1 : apcfSizeMismatch cmd = true
  · simpa [h1] using h
  · rw [Bool.not_eq_true] at h1
    by_cases h2 : cmd.type = BTM_BLE_PF_ADDR_FILTER
    · by_cases hi : is_empty_128bit cmd.irk = true
      · simp [h1, h2, hi, BTM_LE_PF_addr_filter]
      · rw [Bool.not_eq_true] at hi
        simp [h1, h2, hi, BTM_LE_PF_addr_filter, processAddrIrk_cb]
    · by_cases h3 : cmd.type = BTM_BLE_PF_SRVC_DATA
      · simp [h1, h2, h3, BTM_BLE_PF_ADDR_FILTER, BTM_BLE_PF_SRVC_DATA,
          BTM_LE_PF_srvc_data]
        rw [cs_update_target]
        exact h
      · by_cases h4 : cmd.type = BTM_BLE_PF_SRVC_UUID ∨ cmd.type = BTM_BLE_PF_SRVC_SOL_UUID
        · rcases h4 with h4 | h4
          · simp only [h1, h2, h3, h4, BTM_BLE_PF_ADDR_FILTER, BTM_BLE_PF_SRVC_DATA,
              BTM_BLE_PF_SRVC_UUID, BTM_BLE_PF_SRVC_SOL_UUID]
            simpa [BTM_BLE_PF_SRVC_UUID] using
              uuid_filter_target acc.ms.cb BTM_BLE_SCAN_COND_ADD filt_index
                BTM_BLE_PF_SRVC_UUID cmd.uuid BTM_BLE_PF_LOGIC_AND cmd.uuid_mask
          · simp only [h1, h2, h3, h4, BTM_BLE_PF_ADDR_FILTER, BTM_BLE_PF_SRVC_DATA,
              BTM_BLE_PF_SRVC_UUID, BTM_BLE_PF_SRVC_SOL_UUID]
            simpa [BTM_BLE_PF_SRVC_SOL_UUID] using
              uuid_filter_target acc.ms.cb BTM_BLE_SCAN_COND_ADD filt_index
                BTM_BLE_PF_SRVC_SOL_UUID cmd.uuid BTM_BLE_PF_LOGIC_AND cmd.uuid_mask
        · by_cases h5 : cmd.type = BTM_BLE_PF_LOCAL_NAME
          · simp [h1, h2, h3, h4, h5, BTM_LE_PF_local_name, BTM_BLE_PF_ADDR_FILTER,
              BTM_BLE_PF_SRVC_DATA, BTM_BLE_PF_SRVC_UUID, BTM_BLE_PF_SRVC_SOL_UUID,
              BTM_BLE_PF_LOCAL_NAME]
          · by_cases h6 : cmd.type = BTM_BLE_PF_MANU_DATA
            · simp [h1, h2, h3, h4, h5, h6, BTM_LE_PF_manu_data, BTM_BLE_PF_ADDR_FILTER,
                BTM_BLE_PF_SRVC_DATA, BTM_BLE_PF_SRVC_UUID, BTM_BLE_PF_SRVC_SOL_UUID,
                BTM_BLE_PF_LOCAL_NAME, BTM_BLE_PF_MANU_DATA]
            · by_cases h7 : cmd.type = BTM_BLE_PF_SRVC_DATA_PATTERN
              · simp [h1, h2, h3, h4, h5, h6, h7, BTM_LE_PF_srvc_data_pattern,
                  BTM_BLE_PF_ADDR_FILTER, BTM_BLE_PF_SRVC_DATA, BTM_BLE_PF_SRVC_UUID,
                  BTM_BLE_PF_SRVC_SOL_UUID, BTM_BLE_PF_LOCAL_NAME, BTM_BLE_PF_MANU_DATA,
                  BTM_BLE_PF_SRVC_DATA_PATTERN]
              · simpa [h1, h2, h3, h4, h5, h6, h7] using h

/-- The batch loop preserves emptiness of the pending filter target. -/
theorem foldl_setStep_target (resolve : BLE_BD_ADDR → BLE_BD_ADDR) (vsc : VscCb)
    (filt_index : Nat) :
    ∀ (l : List ApcfCommand) (acc : SetAcc),
      acc.ms.cb.cur_filter_target = emptyBdAddr →
      (l.foldl (setStep resolve vsc filt_index) acc).ms.cb.cur_filter_target
        = emptyBdAddr := by
  intro l
  induction l with
  | nil => intro acc h; exact h
  | cons c t ih =>
    intro acc h
    rw [List.foldl_cons]
    apply ih
    unfold setStep
    by_cases ha : acc.aborted = true
    · simpa [ha] using h
    · rw [if_neg (by simp [ha])]
      exact processApcfCommand_target resolve vsc filt_index acc c h

/-! ### Claim theorems -/

/-- C2, counterexample: the claim says every condition encoder sends exactly
the 3-byte header on Clear, but the address encoder's payload length is the
constant header-plus-address length, so a Clear for filter index 1 goes out
as 10 bytes (the 7 type-specific bytes zero-filled), not 3. -/
theorem claim_C2_counterexample :
    BTM_LE_PF_addr_filter_payload idResolve BTM_BLE_SCAN_COND_CLEAR 1 bdAA
      = [2, 3, 1, 0, 0, 0, 0, 0, 0, 0]
    ∧ (BTM_LE_PF_addr_filter_payload idResolve BTM_BLE_SCAN_COND_CLEAR 1 bdAA).length
      ≠ BTM_BLE_ADV_FILT_META_HDR_LENGTH := by
  decide

/-- C2, amended: for every filter index and arguments, the local-name,
manufacturer-data, service-data-pattern and both UUID encoders emit exactly
the 3-byte header [conditionOpcode, action, filterIndex] on Clear; the
address encoder instead always emits 10 bytes, the header followed by seven
zero bytes on Clear. -/
theorem claim_C2_amended (filt_index company company_mask filter_type : Nat)
    (nm data data_mask : List Nat) (u um : Uuid) (addr : BLE_BD_ADDR)
    (resolve : BLE_BD_ADDR → BLE_BD_ADDR) :
    BTM_LE_PF_local_name_payload BTM_BLE_SCAN_COND_CLEAR filt_index nm
      = [BTM_BLE_META_PF_LOCAL_NAME, BTM_BLE_SCAN_COND_CLEAR, filt_index % 256]
    ∧ BTM_LE_PF_manu_data_payload BTM_BLE_SCAN_COND_CLEAR filt_index company
        company_mask data data_mask
      = [BTM_BLE_META_PF_MANU_DATA, BTM_BLE_SCAN_COND_CLEAR, filt_index % 256]
    ∧ BTM_LE_PF_srvc_data_pattern_payload BTM_BLE_SCAN_COND_CLEAR filt_index data
        data_mask
      = [BTM_BLE_META_PF_SRVC_DATA, BTM_BLE_SCAN_COND_CLEAR, filt_index % 256]
    ∧ BTM_LE_PF_uuid_filter_payload BTM_BLE_SCAN_COND_CLEAR filt_index filter_type u um
      = some [(if filter_type = BTM_BLE_PF_SRVC_UUID then BTM_BLE_META_PF_UUID
               else BTM_BLE_META_PF_SOL_UUID) % 256,
              BTM_BLE_SCAN_COND_CLEAR, filt_index % 256]
    ∧ BTM_LE_PF_addr_filter_payload resolve BTM_BLE_SCAN_COND_CLEAR filt_index addr
      = [BTM_BLE_META_PF_ADDR, BTM_BLE_SCAN_COND_CLEAR, filt_index % 256]
          ++ List.replicate 7 0 := by
  refine ⟨?_, ?_, ?_, ?_, ?_⟩
  · simp [BTM_LE_PF_local_name_payload, BTM_BLE_META_PF_LOCAL_NAME,
      BTM_BLE_SCAN_COND_CLEAR]
  · simp [BTM_LE_PF_manu_data_payload, BTM_BLE_META_PF_MANU_DATA,
      BTM_BLE_SCAN_COND_CLEAR]
  · simp [BTM_LE_PF_srvc_data_pattern_payload, BTM_BLE_META_PF_SRVC_DATA,
      BTM_BLE_SCAN_COND_CLEAR]
  · by_cases hft : filter_type = BTM_BLE_PF_SRVC_UUID <;>
      simp [BTM_LE_PF_uuid_filter_payload, hft, BTM_BLE_META_PF_UUID,
        BTM_BLE_META_PF_SOL_UUID, BTM_BLE_SCAN_COND_CLEAR]
  · simp [BTM_LE_PF_addr_filter_payload, BTM_BLE_META_PF_ADDR,
      BTM_BLE_SCAN_COND_CLEAR, BTM_BLE_META_ADDR_LEN]

/-- C3, counterexample: the claim says the null-address all-types
deallocation touches only the reserved generic slot, but with an in-use
per-address slot at entry 1 the scan zeroes that slot as well. -/
theorem claim_C3_counterexample :
    ((btm_ble_dealloc_addr_filter_counter 2 stC none BTM_BLE_PF_TYPE_ALL).1).slots 0
      = zeroPFCount
    ∧ (stC.slots 1).in_use = true
    ∧ ((btm_ble_dealloc_addr_filter_counter 2 stC none BTM_BLE_PF_TYPE_ALL).1).slots 1
      ≠ stC.slots 1 := by
  decide

/-- C3, amended: deallocation with a null address and condition type ALL
zeroes the reserved generic slot and also zeroes every in-use per-address
slot in the scanned range (a null address matches every in-use slot);
slots not in use, and slots beyond the scanned range, are left unchanged. -/
theorem claim_C3_amended (m : Nat) (st : AdvFiltCB) :
    ((btm_ble_dealloc_addr_filter_counter m st none BTM_BLE_PF_TYPE_ALL).1).slots 0
      = zeroPFCount
    ∧ (∀ j, 1 ≤ j → j ≤ m →
        ((btm_ble_dealloc_addr_filter_counter m st none BTM_BLE_PF_TYPE_ALL).1).slots j
          = if (st.slots j).in_use = true then zeroPFCount else st.slots j)
    ∧ (∀ j, m < j →
        ((btm_ble_dealloc_addr_filter_counter m st none BTM_BLE_PF_TYPE_ALL).1).slots j
          = st.slots j) := by
  have hbase : ∀ j, ((btm_ble_dealloc_addr_filter_counter m st none
      BTM_BLE_PF_TYPE_ALL).1).slots j
      = (deallocLoop none (setSlot st.slots 0 zeroPFCount) 1 m false).1 j := by
    intro j
    rfl
  refine ⟨?_, ?_, ?_⟩
  · rw [hbase 0, deallocLoop_none_slots m _ 1 false 0, if_neg (by omega)]
    simp [setSlot]
  · intro j h1 h2
    rw [hbase j, deallocLoop_none_slots m _ 1 false j]
    have hsj : setSlot st.slots 0 zeroPFCount j = st.slots j := by
      simp [setSlot]
      intro hj0
      omega
    rw [hsj]
    by_cases hin : (st.slots j).in_use = true
    · rw [if_pos ⟨h1, by omega, hin⟩, if_pos hin]
    · rw [if_neg (fun hc => hin hc.2.2), if_neg hin]
  · intro j hj
    rw [hbase j, deallocLoop_none_slots m _ 1 false j, if_neg (by omega)]
    simp [setSlot]
    intro hj0
    omega

/-- C3, witness for the amended claim at entry 1 of a two-slot table. -/
theorem claim_C3_witness :
    ((btm_ble_dealloc_addr_filter_counter 2 stC none BTM_BLE_PF_TYPE_ALL).1).slots 1
      = if (stC.slots 1).in_use = true then zeroPFCount else stC.slots 1 :=
  (claim_C3_amended 2 stC).2.1 1 (by decide) (by decide)

/-- C4, code bug: the scan loops run max_filter iterations starting at table
entry 1, so with max_filter = 1 they dereference entry 1 of a 1-entry array
(valid indices are below allocatedSlotEntries). The lookup's result depends
on that out-of-bounds entry: two tables agreeing on every in-bounds entry
give different lookup results. -/
theorem claim_C4_code_bug :
    allocatedSlotEntries vscOne = 1
    ∧ scanTouchedIndices 1 = [1]
    ∧ ((scanTouchedIndices 1).any (fun j => allocatedSlotEntries vscOne ≤ j)) = true
    ∧ stOutA.slots 0 = stOutB.slots 0
    ∧ btm_ble_find_addr_filter_counter 1 stOutA (some bdAA) = none
    ∧ btm_ble_find_addr_filter_counter 1 stOutB (some bdAA) = some 1 := by
  decide

/-- C5: a reply whose byte length is not the expected 4, or whose echoed
subcode differs from the expected subcode, is dropped: the continuation is
not invoked and the accounting state is returned unchanged. -/
theorem claim_C5_router_drop (maxFilter expected_ocf : Nat) (st : AdvFiltCB)
    (evt : List Nat) (h : evt.length ≠ 4 ∨ expected_ocf ≠ evt.getD 1 0) :
    btm_flt_update_cb maxFilter expected_ocf st evt = (st, none) := by
  unfold btm_flt_update_cb
  by_cases hl : evt.length ≠ 4
  · rw [if_pos hl]
  · rcases h with h | h
    · exact absurd h hl
    · rw [if_neg hl]
      simp only []
      rw [if_pos h]

/-- C5, witness: a success reply echoing the UUID subcode when the address
subcode was expected is dropped with the state unchanged. -/
theorem claim_C5_witness :
    btm_flt_update_cb 3 BTM_BLE_META_PF_ADDR btm_ble_adv_filter_init_cb
        [0, BTM_BLE_META_PF_UUID, 1, 1]
      = (btm_ble_adv_filter_init_cb, none) :=
  claim_C5_router_drop 3 BTM_BLE_META_PF_ADDR btm_ble_adv_filter_init_cb
    [0, BTM_BLE_META_PF_UUID, 1, 1] (Or.inr (by decide))

/-- C6: for every action, address argument and availability value, a
condition type above the valid range makes the counter update return the
invalid sentinel with the state untouched. -/
theorem claim_C6_invalid_type (maxFilter : Nat) (st : AdvFiltCB)
    (action cond_type : Nat) (p_bd_addr : Option BLE_BD_ADDR) (num_available : Nat)
    (h : BTM_BLE_PF_TYPE_ALL < cond_type) :
    btm_ble_cs_update_pf_counter maxFilter st action cond_type p_bd_addr num_available
      = (st, BTM_BLE_INVALID_COUNTER) := by
  unfold btm_ble_cs_update_pf_counter
  rw [if_pos h]

/-- C6, witness at cond type BTM_BLE_PF_TYPE_MAX. -/
theorem claim_C6_witness :
    btm_ble_cs_update_pf_counter 3 btm_ble_adv_filter_init_cb BTM_BLE_SCAN_COND_ADD
        BTM_BLE_PF_TYPE_MAX (some bdAA) 1
      = (btm_ble_adv_filter_init_cb, BTM_BLE_INVALID_COUNTER) :=
  claim_C6_invalid_type 3 btm_ble_adv_filter_init_cb BTM_BLE_SCAN_COND_ADD
    BTM_BLE_PF_TYPE_MAX (some bdAA) 1 (by decide)

/-- C7: when the capability record reports filtering unsupported, each of
the four public operations invokes its callback with the fixed unsupported
status and sends nothing. -/
theorem claim_C7_unsupported (vsc : VscCb) (resolve : BLE_BD_ADDR → BLE_BD_ADDR)
    (ms : ModuleState) (filt_index action enable : Nat)
    (commands : List ApcfCommand) (fp : FiltParams)
    (h : is_filtering_supported vsc = false) :
    BTM_LE_PF_set vsc resolve ms filt_index commands
      = (ms, [], [(0, BTM_BLE_PF_ENABLE, BTM_MODE_UNSUPPORTED)])
    ∧ BTM_LE_PF_clear vsc ms filt_index
      = (ms, [], [(0, BTM_BLE_PF_ENABLE, BTM_MODE_UNSUPPORTED)])
    ∧ BTM_BleAdvFilterParamSetup vsc ms action filt_index fp
      = (ms, [], [(0, BTM_BLE_PF_ENABLE, btm_status_value BTM_MODE_UNSUPPORTED)])
    ∧ BTM_BleEnableDisableFilterFeature vsc enable true
      = ([], [(BTM_BLE_PF_ENABLE, BTM_MODE_UNSUPPORTED)]) := by
  refine ⟨?_, ?_, ?_, ?_⟩
  · unfold BTM_LE_PF_set
    rw [if_pos (by simp [h])]
  · unfold BTM_LE_PF_clear
    rw [if_pos (by simp [h])]
  · unfold BTM_BleAdvFilterParamSetup
    rw [if_pos (by simp [h])]
  · unfold BTM_BleEnableDisableFilterFeature
    rw [if_pos (by simp [h])]
    rfl

/-- C7, witness with filter support reported absent. -/
theorem claim_C7_witness :
    BTM_LE_PF_clear vscUnsupported msClean 1
      = (msClean, [], [(0, BTM_BLE_PF_ENABLE, BTM_MODE_UNSUPPORTED)]) :=
  (claim_C7_unsupported vscUnsupported idResolve msClean 1 1 1 [] fpZero
    (by decide)).2.1

/-- C1, counterexample: in the round-trip scenario (address-filter add for
AA:BB:CC:DD:EE:FF acknowledged with success and numAvailable = 1, routed
with the pending filter target empty as the encoder leaves it), the
counter update forces the address to null for the ADDR_FILTER type, so the
generic slot's counter is incremented — contradicting the claim that it is
untouched — and no dedicated slot bound to the address exists afterwards. -/
theorem claim_C1_counterexample :
    (stAddAck 3).slots 0 ≠ btm_ble_adv_filter_init_cb.slots 0
    ∧ btm_ble_find_addr_filter_counter 3 (stAddAck 3) (some bdAA) = none := by
  decide

/-- C1, amended: after the acknowledged add, the accounting lands in the
generic slot: its ADDR_FILTER counter becomes 1 and no dedicated slot is
allocated for the address (a lookup by the address finds nothing); the
subsequent acknowledged delete deallocates only in-use per-address slots,
of which there are none, so every slot — the generic slot's counter
included — is unchanged, and a lookup by the address still finds nothing. -/
theorem claim_C1_amended (m : Nat) :
    (stAddAck m).slots 0 = slotAddOne
    ∧ btm_ble_find_addr_filter_counter m (stAddAck m) (some bdAA) = none
    ∧ (∀ j, (stDelAck m).slots j = (stAddAck m).slots j)
    ∧ btm_ble_find_addr_filter_counter m (stDelAck m) (some bdAA) = none := by
  have hAdd : stAddAck m
      = ⟨setSlot (fun _ => zeroPFCount) 0 slotAddOne, emptyBdAddr, 0⟩ := rfl
  have hz : ∀ j, 1 ≤ j → ((stAddAck m).slots j).in_use = false := by
    intro j hj
    rw [hAdd]
    show (setSlot (fun _ => zeroPFCount) 0 slotAddOne j).in_use = false
    simp only [setSlot]
    rw [if_neg (by omega)]
    rfl
  have hDel : stDelAck m
      = { stAddAck m with
          slots := (deallocLoop none (stAddAck m).slots 1 m false).1 } := rfl
  have hLoop : deallocLoop none (stAddAck m).slots 1 m false
      = ((stAddAck m).slots, false) :=
    deallocLoop_no_inuse none (stAddAck m).slots m 1 false hz
  have hDelEq : stDelAck m = stAddAck m := by
    rw [hDel, hLoop]
  refine ⟨?_, ?_, ?_, ?_⟩
  · rw [hAdd]
    show setSlot (fun _ => zeroPFCount) 0 slotAddOne 0 = slotAddOne
    simp [setSlot]
  · show findLoop (stAddAck m).slots bdAA.bda 1 m = none
    exact findLoop_none (stAddAck m).slots bdAA.bda m 1 hz
  · intro j
    rw [hDelEq]
  · rw [hDelEq]
    show findLoop (stAddAck m).slots bdAA.bda 1 m = none
    exact findLoop_none (stAddAck m).slots bdAA.bda m 1 hz

/-- C8, counterexample: the claim says the clear operation always removes
the (filter index, address) mapping entry; but BTM_LE_PF_clear only deletes
the unbonded device record — the mapping entry survives the clear. -/
theorem claim_C8_counterexample :
    (BTM_LE_PF_clear vscSupported msMapX 5).1.remove_me_later = [(5, addrX)]
    ∧ (BTM_LE_PF_clear vscSupported msMapX 5).1.sec.dev_records = [] := by
  decide

/-- C8, amended: for a filter index with a pending identity-record mapping,
the delete path of the filter-parameter setup deletes the device record
only when the device is not bonded and removes the mapping unless an
attempted deletion failed (then it returns early keeping the mapping);
the clear path also deletes the record only when not bonded but never
removes the mapping entry. -/
theorem claim_C8_amended (vsc : VscCb) (ms : ModuleState) (filt_index : Nat)
    (fp : FiltParams) (a : RawAddress)
    (hsup : is_filtering_supported vsc = true)
    (hmap : mapLookup ms.remove_me_later filt_index = some a) :
    (btm_sec_is_a_bonded_dev ms.sec a = true →
      (BTM_BleAdvFilterParamSetup vsc ms BTM_BLE_SCAN_COND_DELETE filt_index
          fp).1.remove_me_later = mapErase ms.remove_me_later filt_index
      ∧ (BTM_BleAdvFilterParamSetup vsc ms BTM_BLE_SCAN_COND_DELETE filt_index
          fp).1.sec = ms.sec)
    ∧ (btm_sec_is_a_bonded_dev ms.sec a = false →
        (BTM_SecDeleteDevice ms.sec a).2 = true →
        (BTM_BleAdvFilterParamSetup vsc ms BTM_BLE_SCAN_COND_DELETE filt_index
            fp).1.remove_me_later = mapErase ms.remove_me_later filt_index
        ∧ (BTM_BleAdvFilterParamSetup vsc ms BTM_BLE_SCAN_COND_DELETE filt_index
            fp).1.sec = (BTM_SecDeleteDevice ms.sec a).1)
    ∧ (btm_sec_is_a_bonded_dev ms.sec a = false →
        (BTM_SecDeleteDevice ms.sec a).2 = false →
        (BTM_BleAdvFilterParamSetup vsc ms BTM_BLE_SCAN_COND_DELETE filt_index
            fp).1.remove_me_later = ms.remove_me_later)
    ∧ (BTM_LE_PF_clear vsc ms filt_index).1.remove_me_later = ms.remove_me_later
    ∧ (btm_sec_is_a_bonded_dev ms.sec a = true →
        (BTM_LE_PF_clear vsc ms filt_index).1.sec = ms.sec)
    ∧ (btm_sec_is_a_bonded_dev ms.sec a = false →
        (BTM_LE_PF_clear vsc ms filt_index).1.sec
          = (BTM_SecDeleteDevice ms.sec a).1) := by
  refine ⟨?_, ?_, ?_, ?_, ?_, ?_⟩
  · intro hb
    unfold BTM_BleAdvFilterParamSetup
    rw [if_neg (by simp [hsup])]
    rw [if_neg (by decide), if_pos rfl]
    simp [hmap, hb]
  · intro hb hd
    unfold BTM_BleAdvFilterParamSetup
    rw [if_neg (by simp [hsup])]
    rw [if_neg (by decide), if_pos rfl]
    rcases hdd : BTM_SecDeleteDevice ms.sec a with ⟨sec1, ok⟩
    rw [hdd] at hd
    simp at hd
    subst hd
    simp [hmap, hb, hdd]
  · intro hb hd
    unfold BTM_BleAdvFilterParamSetup
    rw [if_neg (by simp [hsup])]
    rw [if_neg (by decide), if_pos rfl]
    rcases hdd : BTM_SecDeleteDevice ms.sec a with ⟨sec1, ok⟩
    rw [hdd] at hd
    simp at hd
    subst hd
    simp [hmap, hb, hdd]
  · unfold BTM_LE_PF_clear
    rw [if_neg (by simp [hsup])]
  · intro hb
    unfold BTM_LE_PF_clear
    rw [if_neg (by simp [hsup])]
    simp [hmap, hb]
  · intro hb
    unfold BTM_LE_PF_clear
    rw [if_neg (by simp [hsup])]
    simp [hmap, hb]

/-- C8, witness: an unbonded deletable record at filter index 5 survives
neither as a device record on clear, yet the mapping stays. -/
theorem claim_C8_witness :
    (BTM_LE_PF_clear vscSupported msMapX 5).1.remove_me_later
      = msMapX.remove_me_later :=
  (claim_C8_amended vscSupported msMapX 5 fpZero addrX (by decide)
    (by decide)).2.2.2.1

/-- The filter-parameter setup never stores into the pending filter target. -/
theorem paramSetup_target (vsc : VscCb) (ms : ModuleState) (action filt_index : Nat)
    (fp : FiltParams) (h : ms.cb.cur_filter_target = emptyBdAddr) :
    (BTM_BleAdvFilterParamSetup vsc ms action filt_index fp).1.cb.cur_filter_target
      = emptyBdAddr := by
  unfold BTM_BleAdvFilterParamSetup
  repeat' split
  all_goals exact h

/-- BTM_LE_PF_clear ends with an empty pending filter target (and the
unsupported path preserves emptiness). -/
theorem pf_clear_target (vsc : VscCb) (ms : ModuleState) (filt_index : Nat)
    (h : ms.cb.cur_filter_target = emptyBdAddr) :
    (BTM_LE_PF_clear vsc ms filt_index).1.cb.cur_filter_target = emptyBdAddr := by
  unfold BTM_LE_PF_clear
  by_cases hs : ¬ is_filtering_supported vsc = true
  · rw [if_pos hs]
    exact h
  · rw [if_neg hs]

/-- BTM_LE_PF_set preserves emptiness of the pending filter target. -/
theorem pf_set_target (vsc : VscCb) (resolve : BLE_BD_ADDR → BLE_BD_ADDR)
    (ms : ModuleState) (filt_index : Nat) (commands : List ApcfCommand)
    (h : ms.cb.cur_filter_target = emptyBdAddr) :
    (BTM_LE_PF_set vsc resolve ms filt_index commands).1.cb.cur_filter_target
      = emptyBdAddr := by
  unfold BTM_LE_PF_set
  by_cases hs : ¬ is_filtering_supported vsc = true
  · rw [if_pos hs]
    exact h
  · rw [if_neg hs]
    exact foldl_setStep_target resolve vsc filt_index commands ⟨ms, [], false⟩ h

/-- C9: starting from a state whose pending filter target is empty — as
established at init and preserved by every operation of the module, none
of which ever stores a non-empty value — every condition-encoder
invocation and every feature-selection path returns with the pending
filter target empty, on success and failure paths alike. -/
theorem claim_C9_pending_target (resolve : BLE_BD_ADDR → BLE_BD_ADDR) (vsc : VscCb)
    (st : AdvFiltCB) (ms : ModuleState)
    (action filt_index filter_type cond_logic company company_mask : Nat)
    (addr : BLE_BD_ADDR) (uuid uuid_mask : Uuid) (nm data data_mask : List Nat)
    (commands : List ApcfCommand) (fp : FiltParams)
    (hms : ms.cb.cur_filter_target = emptyBdAddr) :
    btm_ble_adv_filter_init_cb.cur_filter_target = emptyBdAddr
    ∧ (BTM_LE_PF_addr_filter resolve st action filt_index addr).1.cur_filter_target
      = emptyBdAddr
    ∧ (BTM_LE_PF_uuid_filter st action filt_index filter_type uuid cond_logic
        uuid_mask).1.cur_filter_target = emptyBdAddr
    ∧ (BTM_LE_PF_local_name st action filt_index nm).1.cur_filter_target = emptyBdAddr
    ∧ (BTM_LE_PF_manu_data st action filt_index company company_mask data
        data_mask).1.cur_filter_target = emptyBdAddr
    ∧ (BTM_LE_PF_srvc_data_pattern st action filt_index data
        data_mask).1.cur_filter_target = emptyBdAddr
    ∧ (BTM_LE_PF_set vsc resolve ms filt_index commands).1.cb.cur_filter_target
      = emptyBdAddr
    ∧ (BTM_LE_PF_clear vsc ms filt_index).1.cb.cur_filter_target = emptyBdAddr
    ∧ (BTM_BleAdvFilterParamSetup vsc ms action filt_index fp).1.cb.cur_filter_target
      = emptyBdAddr := by
  refine ⟨rfl, rfl, ?_, rfl, rfl, rfl, ?_, ?_, ?_⟩
  · exact uuid_filter_target st action filt_index filter_type uuid cond_logic uuid_mask
  · exact pf_set_target vsc resolve ms filt_index commands hms
  · exact pf_clear_target vsc ms filt_index hms
  · exact paramSetup_target vsc ms action filt_index fp hms

/-- C9, witness: after a clear on a clean state the pending target is empty. -/
theorem claim_C9_witness :
    (BTM_LE_PF_clear vscSupported msClean 1).1.cb.cur_filter_target = emptyBdAddr :=
  (claim_C9_pending_target idResolve vscSupported btm_ble_adv_filter_init_cb msClean
    1 1 1 0 0 0 bdAA Uuid.kEmpty Uuid.kEmpty [] [] [] [] fpZero rfl).2.2.2.2.2.2.2.1

/-- C10, counterexample: the claim says the batch callback always runs
exactly once with success; but an address command with a non-empty IRK
whose target address already has a device record makes the operation
return early — the callback never runs. -/
theorem claim_C10_counterexample :
    is_filtering_supported vscSupported = true
    ∧ (BTM_LE_PF_set vscSupported idResolve msRecX 1 [cmdIrkX]).2.2 = [] := by
  decide

/-- C10, amended: commands whose data and mask are both non-empty but of
different lengths are skipped without any effect (dropping them from the
batch changes nothing), and — provided no address command carries a
non-empty IRK, so none of the early-return paths fires — the caller's
callback runs exactly once at the end with success, regardless of how many
commands were skipped or had unknown types. -/
theorem claim_C10_amended (vsc : VscCb) (resolve : BLE_BD_ADDR → BLE_BD_ADDR)
    (ms : ModuleState) (filt_index : Nat) (commands : List ApcfCommand)
    (hsup : is_filtering_supported vsc = true)
    (hirk : ∀ cmd ∈ commands, cmd.type = BTM_BLE_PF_ADDR_FILTER →
      is_empty_128bit cmd.irk = true) :
    BTM_LE_PF_set vsc resolve ms filt_index commands
      = BTM_LE_PF_set vsc resolve ms filt_index
          (commands.filter (fun c => !apcfSizeMismatch c))
    ∧ (BTM_LE_PF_set vsc resolve ms filt_index commands).2.2
      = [(0, 0, BTM_SUCCESS)] := by
  have hcond : ¬ (¬ is_filtering_supported vsc = true) := by simp [hsup]
  constructor
  · unfold BTM_LE_PF_set
    rw [if_neg hcond, if_neg hcond]
    simp only [foldl_setStep_filter]
  · unfold BTM_LE_PF_set
    rw [if_neg hcond]
    have hacc := foldl_setStep_noabort resolve vsc filt_index commands
      ⟨ms, [], false⟩ hirk
    simp [hacc]

/-- C10, witness: a single size-mismatched command is skipped and the
callback still runs exactly once with success. -/
theorem claim_C10_witness :
    BTM_LE_PF_set vscSupported idResolve msClean 1 [cmdMismatch]
      = BTM_LE_PF_set vscSupported idResolve msClean 1
          ([cmdMismatch].filter (fun c => !apcfSizeMismatch c))
    ∧ (BTM_LE_PF_set vscSupported idResolve msClean 1 [cmdMismatch]).2.2
      = [(0, 0, BTM_SUCCESS)] :=
  claim_C10_amended vscSupported idResolve msClean 1 [cmdMismatch] (by decide)
    (by
      intro cmd hc ht
      rw [List.mem_singleton] at hc
      subst hc
      exact absurd ht (by decide))

end AdvFilt
